import Mathlib

/-!
Verification of `halotools.mock_observables.two_point_clustering.clustering_helpers`.

The module has three operations:
  * `verify_tpcf_estimator` — lookup against a fixed estimator table;
  * `process_optional_input_sample2` — normalization of the optional second sample;
  * `downsample_inputs_exceeding_max_sample_size` — random subsampling.

A sample is modelled as a list of points, each point a list of coordinates
(numeric values modelled as `Int`).  Warnings emitted through `warnings.warn`
are modelled as a list of strings returned alongside the result.  Exceptions
(`ValueError`, `ShapeError`) are modelled with `Except`.  The process-wide
numpy random generator is modelled as an explicit shuffle oracle
`rng : Nat → List Nat → List Nat`, indexed by how many shuffles the call has
already drawn (the generator's state advances between draws).
-/

namespace ClusteringHelpers

abbrev Point := List Int

abbrev Sample := List Point

/-- The fixed table of available tpcf estimator names and their
`(do_DD, do_DR, do_RR)` requirement triples, from lines 19-25 of
`clustering_helpers.py`. -/
def tpcf_estimator_dd_dr_rr_requirements : List (String × (Bool × Bool × Bool)) :=
  [("Natural", (true, false, true)),
   ("Davis-Peebles", (true, true, false)),
   ("Hewett", (true, true, true)),
   ("Hamilton", (true, true, true)),
   ("Landy-Szalay", (true, true, true))]

/-- `available_estimators = list(tpcf_estimator_dd_dr_rr_requirements.keys())`. -/
def available_estimators : List String :=
  tpcf_estimator_dd_dr_rr_requirements.map Prod.fst

/-- Python's `str` of a list of strings, as used by `"{1}".format(..., available_estimators)`:
each element shown in single quotes, separated by a comma and a space, in brackets. -/
def pyStrList (l : List String) : String :=
  "[" ++ String.intercalate ", " (l.map (fun s => "'" ++ s ++ "'")) ++ "]"

/-- The `ValueError` message built at lines 40-41 of `clustering_helpers.py`. -/
def estimator_error_msg (estimator : String) : String :=
  "Your estimator ``" ++ estimator ++ "`` \n" ++
    "is not in the list of available estimators:\n " ++ pyStrList available_estimators

/-- `verify_tpcf_estimator` (lines 28-42): return the input name unchanged when it
is one of the available estimators, otherwise raise `ValueError` with a message
naming the offending estimator and the list of available ones. -/
def verify_tpcf_estimator (estimator : String) : Except String String :=
  if estimator ∈ available_estimators then
    Except.ok estimator
  else
    Except.error (estimator_error_msg estimator)

/-- Modelled from the spec: `enforce_sample_has_correct_shape` lives in
`halotools.mock_observables.mock_observables_helpers`, which is not part of this
fragment; per the spec it "validates/normalizes a raw array-like into the
canonical (N, D) numeric table form, failing with a ShapeError on malformed
input", where the failure occurs "if dimensionality mismatches the expected
point dimension".  We model it with an explicit expected dimension `d`: a raw
sample passes when every row has exactly `d` coordinates, and is returned
unchanged; otherwise a ShapeError is raised. -/
def enforce_sample_has_correct_shape (d : Nat) (s : Sample) : Except String Sample :=
  if s.all (fun r => r.length == d) then
    Except.ok s
  else
    Except.error "ShapeError: input sample has the wrong shape"

/-- The numpy `.shape` of a rectangular (N, D) sample: row count and row width. -/
def npShape (s : Sample) : Nat × Nat :=
  (s.length, (s.headD []).length)

/-- `np.all(sample1 == sample2)` for two same-shaped tables: element-wise exact
equality of every coordinate. -/
def npAllEq (s1 s2 : Sample) : Bool :=
  (List.zip s1 s2).all (fun p => (List.zip p.1 p.2).all (fun q => q.1 == q.2))

/-- The warning emitted at lines 88-90 of `clustering_helpers.py`. -/
def sample1_eq_sample2_warning : String :=
  "\n `sample1` and `sample2` are exactly the same, \n" ++
    "only the auto-correlation will be returned.\n"

/-- `process_optional_input_sample2` (lines 45-95).  `sample2 = none` models the
Python `None`; the result carries the returned `(sample2, _sample1_is_sample2,
do_cross)` triple together with the list of warnings emitted, or the propagated
`ShapeError`. -/
def process_optional_input_sample2 (d : Nat) (sample1 : Sample)
    (sample2 : Option Sample) (do_cross : Bool) :
    Except String ((Sample × Bool × Bool) × List String) :=
  match sample2 with
  | none => Except.ok ((sample1, true, do_cross), [])
  | some s2 =>
    match enforce_sample_has_correct_shape d s2 with
    | Except.error e => Except.error e
    | Except.ok s2 =>
      if npShape sample1 != npShape s2 then
        Except.ok ((s2, false, do_cross), [])
      else
        if npAllEq sample1 s2 then
          Except.ok ((s2, true, false), [sample1_eq_sample2_warning])
        else
          Except.ok ((s2, false, do_cross), [])

/-- The warning emitted at lines 126-128 (and 137-139) of `clustering_helpers.py`. -/
def sample1_downsample_warning : String :=
  "\n `sample1` exceeds `max_sample_size` \n" ++ "downsampling `sample1`..."

/-- The warning emitted at lines 147-149 of `clustering_helpers.py`. -/
def sample2_downsample_warning : String :=
  "\n `sample2` exceeds `max_sample_size` \n" ++ "downsampling `sample2`..."

/-- `sample[inds]`: numpy fancy indexing of the rows of `sample` at the index
list `inds` (every index produced by the shuffle of `np.arange` is in range). -/
def selectRows (s : Sample) (inds : List Nat) : Sample :=
  inds.filterMap (fun i => s[i]?)

/-- `downsample_inputs_exceeding_max_sample_size` (lines 98-153).  `rng k l`
models the effect of `np.random.shuffle` on the index array `l` when the call
has already drawn `k` shuffles (the global generator advances between draws).
The result carries the returned `(sample1, sample2)` pair together with the
warnings emitted. -/
def downsample_inputs_exceeding_max_sample_size
    (rng : Nat → List Nat → List Nat) (sample1 sample2 : Sample)
    ( _sample1_is_sample2 : Bool) (max_sample_size : Nat) :
    (Sample × Sample) × List String :=
  if _sample1_is_sample2 then
    if sample1.length > max_sample_size then
      let inds := (rng 0 (List.range sample1.length)).take max_sample_size
      ((selectRows sample1 inds, sample2), [sample1_downsample_warning])
    else
      ((sample1, sample2), [])
  else
    let step1 :=
      if sample1.length > max_sample_size then
        let inds := (rng 0 (List.range sample1.length)).take max_sample_size
        (selectRows sample1 inds, [sample1_downsample_warning], 1)
      else
        (sample1, [], 0)
    let step2 :=
      if sample2.length > max_sample_size then
        let inds := (rng step1.2.2 (List.range sample2.length)).take max_sample_size
        (selectRows sample2 inds, [sample2_downsample_warning])
      else
        (sample2, [])
    ((step1.1, step2.1), step1.2.1 ++ step2.2)

/-! ### Helper lemmas -/

lemma string_middle_infix (a b c : String) : b.data <:+: (a ++ b ++ c).data :=
  ⟨a.data, c.data, by simp [String.data_append]⟩

lemma string_suffix_infix (a b : String) : b.data <:+: (a ++ b).data :=
  ⟨a.data, [], by simp [String.data_append]⟩

lemma selectRows_eq_map (s : Sample) (inds : List Nat)
    (h : ∀ i ∈ inds, i < s.length) :
    selectRows s inds = inds.map (fun i => s.getD i []) := by
  induction inds with
  | nil => rfl
  | cons a t ih =>
    have ha : a < s.length := h a (List.mem_cons_self a t)
    have ht : ∀ i ∈ t, i < s.length := fun i hi => h i (List.mem_cons_of_mem a hi)
    have hd : selectRows s (a :: t) = s[a] :: selectRows s t := by
      simp [selectRows, List.filterMap_cons, List.getElem?_eq_getElem ha]
    rw [hd, ih ht, List.map_cons]
    congr 1
    rw [List.getD_eq_getElem?_getD, List.getElem?_eq_getElem ha]
    exact (Option.getD_some).symm

lemma selectRows_length_le (s : Sample) (l : List Nat) (m : Nat) :
    (selectRows s (l.take m)).length ≤ m :=
  le_trans (List.length_filterMap_le _ _) (List.length_take_le m l)

lemma selectRows_mem (s : Sample) (inds : List Nat) (r : Point)
    (h : r ∈ selectRows s inds) : r ∈ s := by
  rcases List.mem_filterMap.1 h with ⟨i, _, hget⟩
  exact List.getElem?_mem hget

lemma take_of_perm_range_nodup {l : List Nat} {n m : Nat}
    (h : l.Perm (List.range n)) : (l.take m).Nodup :=
  (h.nodup_iff.2 (List.nodup_range n)).sublist (List.take_sublist m l)

lemma take_of_perm_range_length {l : List Nat} {n m : Nat}
    (h : l.Perm (List.range n)) (hm : m ≤ n) : (l.take m).length = m := by
  rw [List.length_take, h.length_eq, List.length_range]
  exact Nat.min_eq_left hm

lemma take_of_perm_range_mem {l : List Nat} {n m i : Nat}
    (h : l.Perm (List.range n)) (hi : i ∈ l.take m) : i < n :=
  List.mem_range.1 (h.mem_iff.1 (List.mem_of_mem_take hi))

/-! ### Claims -/

/-- Claim C10: the estimator table is a fixed five-entry mapping whose
`(do_DD, do_DR, do_RR)` triples are exactly Natural ↦ (T, F, T),
Davis-Peebles ↦ (T, T, F), and Hewett, Hamilton, Landy-Szalay ↦ (T, T, T).
Nothing in the module writes to the table: in this development it is a plain
`def`, and no operation of the module produces a modified table. -/
theorem estimator_table_fixed :
    tpcf_estimator_dd_dr_rr_requirements.length = 5 ∧
    tpcf_estimator_dd_dr_rr_requirements.lookup "Natural" = some (true, false, true) ∧
    tpcf_estimator_dd_dr_rr_requirements.lookup "Davis-Peebles" = some (true, true, false) ∧
    tpcf_estimator_dd_dr_rr_requirements.lookup "Hewett" = some (true, true, true) ∧
    tpcf_estimator_dd_dr_rr_requirements.lookup "Hamilton" = some (true, true, true) ∧
    tpcf_estimator_dd_dr_rr_requirements.lookup "Landy-Szalay" = some (true, true, true) ∧
    available_estimators = ["Natural", "Davis-Peebles", "Hewett", "Hamilton", "Landy-Szalay"] := by
  decide

set_option maxRecDepth 100000 in
/-- Claim C2: a name that is a key of the estimator table is returned unchanged;
any other name raises a `ValueError` whose message contains the offending name
and every valid name.  The function is pure: it is modelled as a total function
from the name to an `Except` value, so it has no side effects. -/
theorem verify_tpcf_estimator_spec (estimator : String) :
    (estimator ∈ available_estimators →
      verify_tpcf_estimator estimator = Except.ok estimator) ∧
    (estimator ∉ available_estimators →
      verify_tpcf_estimator estimator = Except.error (estimator_error_msg estimator) ∧
      estimator.data <:+: (estimator_error_msg estimator).data ∧
      ∀ v ∈ available_estimators, v.data <:+: (estimator_error_msg estimator).data) := by
  refine ⟨fun h => ?_, fun h => ⟨?_, ?_, ?_⟩⟩
  · simp [verify_tpcf_estimator, h]
  · simp [verify_tpcf_estimator, h]
  · exact ⟨"Your estimator ``".data,
      ("`` \n" ++ "is not in the list of available estimators:\n " ++
        pyStrList available_estimators).data,
      by simp [estimator_error_msg, String.data_append]⟩
  · have htail : ∀ v ∈ available_estimators,
        v.data <:+: ("is not in the list of available estimators:\n " ++
          pyStrList available_estimators).data := by decide
    intro v hv
    refine (htail v hv).trans
      ⟨("Your estimator ``" ++ estimator ++ "`` \n").data, [], ?_⟩
    simp [estimator_error_msg, String.data_append]

/-- Witness for C2 at the concrete inputs "Natural" (valid) and "Foo" (invalid). -/
theorem verify_tpcf_estimator_spec_witness :
    verify_tpcf_estimator "Natural" = Except.ok "Natural" ∧
    (verify_tpcf_estimator "Foo" = Except.error (estimator_error_msg "Foo") ∧
      "Foo".data <:+: (estimator_error_msg "Foo").data ∧
      ∀ v ∈ available_estimators, v.data <:+: (estimator_error_msg "Foo").data) :=
  ⟨(verify_tpcf_estimator_spec "Natural").1 (by decide),
   (verify_tpcf_estimator_spec "Foo").2 (by decide)⟩

/-- Claim C4: when `sample2` is absent, `process_optional_input_sample2` returns
`sample2 = sample1` itself, `_sample1_is_sample2 = true` and `do_cross`
unchanged, emitting no warning; the shape-enforcement function is never
consulted (the result does not depend on whether `sample1` would pass it, as
the statement holds for every `sample1` and dimension `d`). -/
theorem process_sample2_absent (d : Nat) (sample1 : Sample) (do_cross : Bool) :
    process_optional_input_sample2 d sample1 none do_cross =
      Except.ok ((sample1, true, do_cross), []) := rfl

/-- The spec's running example sample `[[0,0],[1,1]]`. -/
def sample_pair : Sample := [[0, 0], [1, 1]]

/-- The spec's running example sample `[[2,2],[3,3]]`. -/
def sample_pair_other : Sample := [[2, 2], [3, 3]]

/-- Claim C3: a provided `sample2` that passes the shape check, has the same
shape as `sample1` and is element-wise exactly equal to it yields
`_sample1_is_sample2 = true`, a user-visible warning, and `do_cross = false`
regardless of the input `do_cross`. -/
theorem process_sample2_equal (d : Nat) (sample1 s2 : Sample) (do_cross : Bool)
    (hok : enforce_sample_has_correct_shape d s2 = Except.ok s2)
    (hsh : npShape sample1 = npShape s2)
    (heq : npAllEq sample1 s2 = true) :
    process_optional_input_sample2 d sample1 (some s2) do_cross =
      Except.ok ((s2, true, false), [sample1_eq_sample2_warning]) := by
  simp [process_optional_input_sample2, hok, hsh, heq]

/-- Witness for C3 at the spec's example: `sample1 = sample2 = [[0,0],[1,1]]`,
`do_cross = true`. -/
theorem process_sample2_equal_witness :
    process_optional_input_sample2 2 sample_pair (some sample_pair) true =
      Except.ok ((sample_pair, true, false), [sample1_eq_sample2_warning]) :=
  process_sample2_equal 2 sample_pair sample_pair true rfl rfl (by decide)

/-- Claim C5: a provided `sample2` that passes the shape check but differs from
`sample1` in shape or in some coordinate yields `_sample1_is_sample2 = false`
with `do_cross` unchanged, no warning and no exception. -/
theorem process_sample2_mismatch (d : Nat) (sample1 s2 : Sample) (do_cross : Bool)
    (hok : enforce_sample_has_correct_shape d s2 = Except.ok s2)
    (hne : npShape sample1 ≠ npShape s2 ∨ npAllEq sample1 s2 = false) :
    process_optional_input_sample2 d sample1 (some s2) do_cross =
      Except.ok ((s2, false, do_cross), []) := by
  rcases hne with hne | hne
  · simp [process_optional_input_sample2, hok, bne_iff_ne, hne]
  · by_cases hsh : npShape sample1 = npShape s2
    · simp [process_optional_input_sample2, hok, hsh, hne]
    · simp [process_optional_input_sample2, hok, bne_iff_ne, hsh]

/-- Witness for C5 at the spec's example: `sample1 = [[0,0],[1,1]]`,
`sample2 = [[2,2],[3,3]]`, `do_cross = true`. -/
theorem process_sample2_mismatch_witness :
    process_optional_input_sample2 2 sample_pair (some sample_pair_other) true =
      Except.ok ((sample_pair_other, false, true), []) :=
  process_sample2_mismatch 2 sample_pair sample_pair_other true rfl (Or.inr (by decide))

/-- Claim C8: a provided `sample2` goes through `enforce_sample_has_correct_shape`
before any comparison with `sample1`, and a ShapeError raised there propagates
unchanged to the caller; `sample2` is not returned. -/
theorem process_sample2_shape_error_propagates (d : Nat) (sample1 s2 : Sample)
    (do_cross : Bool) (e : String)
    (herr : enforce_sample_has_correct_shape d s2 = Except.error e) :
    process_optional_input_sample2 d sample1 (some s2) do_cross = Except.error e := by
  simp [process_optional_input_sample2, herr]

/-- Witness for C8: a 2-dimensional `sample2` against expected dimension 3. -/
theorem process_sample2_shape_error_propagates_witness :
    process_optional_input_sample2 3 sample_pair (some [[0, 0]]) true =
      Except.error "ShapeError: input sample has the wrong shape" :=
  process_sample2_shape_error_propagates 3 sample_pair [[0, 0]] true _ rfl

/-- A concrete shuffle oracle for witnesses: every draw reverses the index
list, which is a permutation of it. -/
def rngRev : Nat → List Nat → List Nat := fun _ l => l.reverse

/-- A concrete 3-row sample. -/
def sample_three : Sample := [[0], [1], [2]]

/-- Another concrete 3-row sample, disjoint from `sample_three`. -/
def sample_three_other : Sample := [[3], [4], [5]]

set_option maxRecDepth 100000 in
/-- Claim C6: each sample the call processes whose row count exceeds
`max_sample_size` is replaced by exactly `max_sample_size` of its original rows
at pairwise-distinct indices (chosen without replacement), the retained rows
ordered by the random permutation of row indices (the selected indices are a
prefix of the shuffled index array), and a warning naming the downsampled
sample is emitted.  `sample1` is processed in both branches; `sample2` is
processed independently when `_sample1_is_sample2` is false. -/
theorem downsample_exceeding_mechanics
    (rng : Nat → List Nat → List Nat) (s1 s2 : Sample) (b : Bool) (m : Nat)
    (hperm : ∀ k n, (rng k (List.range n)).Perm (List.range n)) :
    (s1.length > m →
      ∃ inds : List Nat,
        inds.Nodup ∧ inds.length = m ∧ (∀ i ∈ inds, i < s1.length) ∧
        inds <+: rng 0 (List.range s1.length) ∧
        (downsample_inputs_exceeding_max_sample_size rng s1 s2 b m).1.1 =
          inds.map (fun i => s1.getD i []) ∧
        sample1_downsample_warning ∈
          (downsample_inputs_exceeding_max_sample_size rng s1 s2 b m).2) ∧
    (b = false → s2.length > m →
      ∃ inds : List Nat,
        inds.Nodup ∧ inds.length = m ∧ (∀ i ∈ inds, i < s2.length) ∧
        inds <+: rng (if s1.length > m then 1 else 0) (List.range s2.length) ∧
        (downsample_inputs_exceeding_max_sample_size rng s1 s2 b m).1.2 =
          inds.map (fun i => s2.getD i []) ∧
        sample2_downsample_warning ∈
          (downsample_inputs_exceeding_max_sample_size rng s1 s2 b m).2) ∧
    "sample1".data <:+: sample1_downsample_warning.data ∧
    "sample2".data <:+: sample2_downsample_warning.data := by
  refine ⟨?_, ?_, by decide, by decide⟩
  · intro h1
    have hp := hperm 0 s1.length
    refine ⟨(rng 0 (List.range s1.length)).take m,
      take_of_perm_range_nodup hp,
      take_of_perm_range_length hp (le_of_lt h1),
      fun i hi => take_of_perm_range_mem hp hi,
      List.take_prefix m _, ?_, ?_⟩ <;>
      cases b <;>
        simp [downsample_inputs_exceeding_max_sample_size, h1,
          selectRows_eq_map s1 _ (fun i hi => take_of_perm_range_mem hp hi)]
  · intro hb h2
    subst hb
    by_cases hc : s1.length > m
    · have hp := hperm 1 s2.length
      refine ⟨(rng 1 (List.range s2.length)).take m,
        take_of_perm_range_nodup hp,
        take_of_perm_range_length hp (le_of_lt h2),
        fun i hi => take_of_perm_range_mem hp hi, ?_, ?_, ?_⟩
      · rw [if_pos hc]
        exact List.take_prefix m _
      · simp [downsample_inputs_exceeding_max_sample_size, hc, h2,
          selectRows_eq_map s2 _ (fun i hi => take_of_perm_range_mem hp hi)]
      · simp [downsample_inputs_exceeding_max_sample_size, hc, h2]
    · have hp := hperm 0 s2.length
      refine ⟨(rng 0 (List.range s2.length)).take m,
        take_of_perm_range_nodup hp,
        take_of_perm_range_length hp (le_of_lt h2),
        fun i hi => take_of_perm_range_mem hp hi, ?_, ?_, ?_⟩
      · rw [if_neg hc]
        exact List.take_prefix m _
      · simp [downsample_inputs_exceeding_max_sample_size, hc, h2,
          selectRows_eq_map s2 _ (fun i hi => take_of_perm_range_mem hp hi)]
      · simp [downsample_inputs_exceeding_max_sample_size, hc, h2]

/-- Witness for C6: the reversing shuffle, `sample1` and `sample2` with 3 rows
each, `_sample1_is_sample2 = false`, `max_sample_size = 2`. -/
theorem downsample_exceeding_mechanics_witness :
    (∃ inds : List Nat,
        inds.Nodup ∧ inds.length = 2 ∧ (∀ i ∈ inds, i < sample_three.length) ∧
        inds <+: rngRev 0 (List.range sample_three.length) ∧
        (downsample_inputs_exceeding_max_sample_size rngRev sample_three
            sample_three_other false 2).1.1 =
          inds.map (fun i => sample_three.getD i []) ∧
        sample1_downsample_warning ∈
          (downsample_inputs_exceeding_max_sample_size rngRev sample_three
            sample_three_other false 2).2) ∧
    (∃ inds : List Nat,
        inds.Nodup ∧ inds.length = 2 ∧ (∀ i ∈ inds, i < sample_three_other.length) ∧
        inds <+: rngRev (if sample_three.length > 2 then 1 else 0)
          (List.range sample_three_other.length) ∧
        (downsample_inputs_exceeding_max_sample_size rngRev sample_three
            sample_three_other false 2).1.2 =
          inds.map (fun i => sample_three_other.getD i []) ∧
        sample2_downsample_warning ∈
          (downsample_inputs_exceeding_max_sample_size rngRev sample_three
            sample_three_other false 2).2) :=
  ⟨(downsample_exceeding_mechanics rngRev sample_three sample_three_other false 2
      (fun _ n => List.reverse_perm (List.range n))).1 (by decide),
   (downsample_exceeding_mechanics rngRev sample_three sample_three_other false 2
      (fun _ n => List.reverse_perm (List.range n))).2.1 rfl (by decide)⟩

/-- Claim C1 counterexample: with `sample1 = sample2 = sample_three` (3 rows),
`_sample1_is_sample2 = true` and `max_sample_size = 1`, the returned `sample1`
has exactly 1 row but the returned `sample2` still has 3 rows — it is not
"likewise reduced to those same rows". -/
theorem downsample_aliased_counterexample :
    (downsample_inputs_exceeding_max_sample_size rngRev sample_three
        sample_three true 1).1.1.length = 1 ∧
    ¬ ((downsample_inputs_exceeding_max_sample_size rngRev sample_three
        sample_three true 1).1.2.length = 1) := by
  decide

/-- Claim C1 (amended): when `_sample1_is_sample2 = true` and `sample1` (aliased
with `sample2`) has more than `max_sample_size` rows, the call returns a
`sample1` with exactly `max_sample_size` rows, each a row of the original
sample, and emits the downsampling warning; but the returned `sample2` is the
original, un-downsampled sample — the identical-branch path never re-derives
`sample2` from the downsampled `sample1`, so the aliasing between the two
returned samples is not preserved. -/
theorem downsample_aliased_amended
    (rng : Nat → List Nat → List Nat) (s1 : Sample) (m : Nat)
    (hperm : ∀ k n, (rng k (List.range n)).Perm (List.range n))
    (h1 : s1.length > m) :
    (downsample_inputs_exceeding_max_sample_size rng s1 s1 true m).1.1.length = m ∧
    (∀ r ∈ (downsample_inputs_exceeding_max_sample_size rng s1 s1 true m).1.1, r ∈ s1) ∧
    (downsample_inputs_exceeding_max_sample_size rng s1 s1 true m).1.2 = s1 ∧
    (downsample_inputs_exceeding_max_sample_size rng s1 s1 true m).2 =
      [sample1_downsample_warning] := by
  have hp := hperm 0 s1.length
  have hsel : (downsample_inputs_exceeding_max_sample_size rng s1 s1 true m).1.1 =
      selectRows s1 ((rng 0 (List.range s1.length)).take m) := by
    simp [downsample_inputs_exceeding_max_sample_size, h1]
  refine ⟨?_, ?_, ?_, ?_⟩
  · rw [hsel, selectRows_eq_map s1 _ (fun i hi => take_of_perm_range_mem hp hi),
      List.length_map]
    exact take_of_perm_range_length hp (le_of_lt h1)
  · intro r hr
    rw [hsel] at hr
    exact selectRows_mem s1 _ r hr
  · simp [downsample_inputs_exceeding_max_sample_size, h1]
  · simp [downsample_inputs_exceeding_max_sample_size, h1]

/-- Witness for C1 (amended) at the reversing shuffle, `sample_three`,
`max_sample_size = 1`. -/
theorem downsample_aliased_amended_witness :
    (downsample_inputs_exceeding_max_sample_size rngRev sample_three
        sample_three true 1).1.1.length = 1 ∧
    (∀ r ∈ (downsample_inputs_exceeding_max_sample_size rngRev sample_three
        sample_three true 1).1.1, r ∈ sample_three) ∧
    (downsample_inputs_exceeding_max_sample_size rngRev sample_three
        sample_three true 1).1.2 = sample_three ∧
    (downsample_inputs_exceeding_max_sample_size rngRev sample_three
        sample_three true 1).2 = [sample1_downsample_warning] :=
  downsample_aliased_amended rngRev sample_three 1
    (fun _ n => List.reverse_perm (List.range n)) (by decide)

/-- Claim C7: a sample with at most `max_sample_size` rows is left unchanged
with no warning, and applying the size limiter a second time with the same
`max_sample_size` (and any shuffle oracle) returns the first application's
result pair unchanged with no warnings: the second application is a no-op. -/
theorem downsample_small_noop_and_idempotent
    (rng rng2 : Nat → List Nat → List Nat) (s1 s2 : Sample) (b : Bool) (m : Nat) :
    (b = true → s1.length ≤ m →
      downsample_inputs_exceeding_max_sample_size rng s1 s2 b m = ((s1, s2), [])) ∧
    (b = false → s1.length ≤ m → s2.length ≤ m →
      downsample_inputs_exceeding_max_sample_size rng s1 s2 b m = ((s1, s2), [])) ∧
    (downsample_inputs_exceeding_max_sample_size rng2
        (downsample_inputs_exceeding_max_sample_size rng s1 s2 b m).1.1
        (downsample_inputs_exceeding_max_sample_size rng s1 s2 b m).1.2 b m =
      ((downsample_inputs_exceeding_max_sample_size rng s1 s2 b m).1, [])) := by
  refine ⟨?_, ?_, ?_⟩
  · intro hb h1
    subst hb
    simp [downsample_inputs_exceeding_max_sample_size, Nat.not_lt.2 h1]
  · intro hb h1 h2
    subst hb
    simp [downsample_inputs_exceeding_max_sample_size, Nat.not_lt.2 h1, Nat.not_lt.2 h2]
  · cases b
    · by_cases hc1 : s1.length > m <;> by_cases hc2 : s2.length > m <;>
        simp [downsample_inputs_exceeding_max_sample_size, hc1, hc2,
          Nat.not_lt.2 (selectRows_length_le s1 (rng 0 (List.range s1.length)) m),
          Nat.not_lt.2 (selectRows_length_le s2 (rng 0 (List.range s2.length)) m),
          Nat.not_lt.2 (selectRows_length_le s2 (rng 1 (List.range s2.length)) m)]
    · by_cases hc1 : s1.length > m <;>
        simp [downsample_inputs_exceeding_max_sample_size, hc1,
          Nat.not_lt.2 (selectRows_length_le s1 (rng 0 (List.range s1.length)) m)]

/-- Witness for C7: 1-row samples under `max_sample_size = 5`, in both the
aliased and the non-aliased branch, plus the idempotence equation at a
3-row sample with `max_sample_size = 2`. -/
theorem downsample_small_noop_and_idempotent_witness :
    downsample_inputs_exceeding_max_sample_size rngRev [[0]] [[1]] true 5 =
      (([[0]], [[1]]), []) ∧
    downsample_inputs_exceeding_max_sample_size rngRev [[0]] [[1]] false 5 =
      (([[0]], [[1]]), []) ∧
    (downsample_inputs_exceeding_max_sample_size rngRev
        (downsample_inputs_exceeding_max_sample_size rngRev sample_three
          sample_three_other false 2).1.1
        (downsample_inputs_exceeding_max_sample_size rngRev sample_three
          sample_three_other false 2).1.2 false 2 =
      ((downsample_inputs_exceeding_max_sample_size rngRev sample_three
          sample_three_other false 2).1, [])) :=
  ⟨(downsample_small_noop_and_idempotent rngRev rngRev [[0]] [[1]] true 5).1
      rfl (by decide),
   (downsample_small_noop_and_idempotent rngRev rngRev [[0]] [[1]] false 5).2.1
      rfl (by decide) (by decide),
   (downsample_small_noop_and_idempotent rngRev rngRev sample_three
      sample_three_other false 2).2.2⟩

/-- Claim C9: with `max_sample_size = 0` and a non-empty `sample1`, the call
raises no error (it is a total function): the exceeds-threshold branch runs,
the empty index slice selects no rows, the returned `sample1` has zero rows,
and the downsampling warning is the only signal for `sample1`. -/
theorem downsample_zero_threshold
    (rng : Nat → List Nat → List Nat) (s1 s2 : Sample) (b : Bool)
    (h : s1 ≠ []) :
    (downsample_inputs_exceeding_max_sample_size rng s1 s2 b 0).1.1 = [] ∧
    sample1_downsample_warning ∈
      (downsample_inputs_exceeding_max_sample_size rng s1 s2 b 0).2 := by
  have h1 : s1.length > 0 := List.length_pos.2 h
  cases b <;>
    simp [downsample_inputs_exceeding_max_sample_size, h1, selectRows]

/-- Witness for C9 at the reversing shuffle and `sample_three`. -/
theorem downsample_zero_threshold_witness :
    (downsample_inputs_exceeding_max_sample_size rngRev sample_three
        sample_three_other true 0).1.1 = [] ∧
    sample1_downsample_warning ∈
      (downsample_inputs_exceeding_max_sample_size rngRev sample_three
        sample_three_other true 0).2 :=
  downsample_zero_threshold rngRev sample_three sample_three_other true (by decide)

end ClusteringHelpers
